import Mathlib

/-!
Verification of the CAN database consolidator (`cantools/database/can/database.py`).

The development shallowly embeds the `Database` class of the source file.
Python `dict`s are modelled as association lists where a later assignment
shadows an earlier one; Python exceptions are modelled with `Except`;
`LOGGER.warning` calls are modelled by returning a list of structured
warnings next to the new state.  Python integers appearing here (frame ids
and masks) are non-negative throughout the program, so they are modelled as
`Nat` with the bitwise operations `&&&`, `|||`, `^^^`.

The `Message` class and the format loaders live in other files of the
repository; the small fragments of their behaviour that the consolidator
depends on are modelled from the specification and carry doc comments
starting with `Modelled from the spec:`.
-/

namespace Cantools

/-- Decidable equality of `Except` results, used to evaluate the concrete
witnesses and counterexamples. -/
instance {ε α : Type} [DecidableEq ε] [DecidableEq α] :
    DecidableEq (Except ε α) := fun a b =>
  match a, b with
  | .error e, .error f =>
    if h : e = f then .isTrue (by rw [h])
    else .isFalse (by intro hh; injection hh with h2; exact h h2)
  | .error _, .ok _ => .isFalse (by intro hh; exact Except.noConfusion hh)
  | .ok _, .error _ => .isFalse (by intro hh; exact Except.noConfusion hh)
  | .ok x, .ok y =>
    if h : x = y then .isTrue (by rw [h])
    else .isFalse (by intro hh; injection hh with h2; exact h h2)

/-- Python `dict` lookup, modelled on an association list where the most
recent assignment is found first. -/
def dictGet {α β : Type} [DecidableEq α] (d : List (α × β)) (k : α) : Option β :=
  (d.find? (fun p => decide (p.1 = k))).map Prod.snd

/-- Python `dict` assignment `d[k] = v`: the new binding shadows any earlier
binding of the same key. -/
def dictSet {α β : Type} [DecidableEq α] (d : List (α × β)) (k : α) (v : β) :
    List (α × β) :=
  (k, v) :: d

/-- Modelled from the spec: one signal layout (`Signal`, not under `src/`).
Only the fields the Structural Validator of §4.5 consults for a
non-multiplexed little-endian unsigned integer signal are kept: the claims
about the consolidator never inspect byte order, signedness, scaling,
choices or multiplexing. -/
structure Signal where
  name : String
  start_bit : Nat
  length : Nat
deriving DecidableEq, Repr

/-- Modelled from the spec: a message (`Message`, not under `src/`), §3:
frame_id is a non-negative integer, `length` is the payload size in bytes,
`signals` an ordered sequence of signal layouts. -/
structure Message where
  name : String
  frame_id : Nat
  length : Nat
  signals : List Signal
deriving DecidableEq, Repr

/-- A CAN node; only its name is consulted by the consolidator. -/
structure Node where
  name : String
deriving DecidableEq, Repr

/-- A CAN bus; only its name is consulted by the consolidator. -/
structure Bus where
  name : String
deriving DecidableEq, Repr

/-- Structured form of the two `LOGGER.warning` calls in `_add_message`. -/
inductive Warning
  | nameCollision (old new : String)
  | frameIdCollision (old new : String) (maskedId : Nat)
deriving DecidableEq, Repr

/-- Errors raised by the structural validator (§4.5, §7 StructuralError). -/
inductive StructError
  | signalOutOfBounds (message signal : String)
  | overlappingSignals (message a b : String)
  | duplicateSignalName (message signal : String)
deriving DecidableEq, Repr

/-- Errors raised by the message codec (§7 EncodeError / DecodeError). -/
inductive CodecError
  | missingValue (signal : String)
  | shortData (message : String) (actual expected : Nat)
deriving DecidableEq, Repr

/-- Errors raised by the `Database` methods: dictionary `KeyError`s on the
two indices, node/bus `KeyError`s, the `ValueError` of an invalid
`frame_id_or_name`, and codec errors bubbled up from a message. -/
inductive DbError
  | keyErrorId (frame_id : Nat)
  | keyErrorName (key : String)
  | invalidKeyType
  | codec (e : CodecError)
deriving DecidableEq, Repr

/-- The dynamic type of the `frame_id_or_name` argument of
`encode_message` / `decode_message`: a Python `int`, a Python `str`, or any
value of another type (the `else` branch of the `isinstance` dispatch). -/
inductive FrameKey
  | id (frame_id : Nat)
  | name (name : String)
  | other
deriving DecidableEq, Repr

/-- Modelled from the spec: the parse result handed to the consolidator by
an external format loader (`InternalDatabase`, not under `src/`; §6
`load_string` contract).  The format-specifics objects are opaque to the
consolidator and are modelled as opaque tokens. -/
structure InternalDatabase where
  messages : List Message
  nodes : List Node
  buses : List Bus
  version : Option String
  dbc : Option Nat
  autosar : Option Nat
deriving DecidableEq, Repr

/-- The `Database` class state: the message list, node/bus/version/format
metadata, the two derived indices, the frame id mask and the strict flag. -/
structure Database where
  messages : List Message
  nodes : List Node
  buses : List Bus
  version : Option String
  dbc : Option Nat
  autosar : Option Nat
  name_to_message : List (String × Message)
  frame_id_to_message : List (Nat × Message)
  frame_id_mask : Nat
  strict : Bool
deriving DecidableEq, Repr

/-- Whether a signal's bit range lies inside a payload of `lengthBytes`
bytes (§4.5 check (a)). -/
def Signal.fitsIn (s : Signal) (lengthBytes : Nat) : Bool :=
  s.start_bit + s.length ≤ 8 * lengthBytes

/-- Whether the bit ranges of two signals intersect (§4.5 check (b)). -/
def Signal.overlapping (a b : Signal) : Bool :=
  a.start_bit < b.start_bit + b.length && b.start_bit < a.start_bit + a.length

/-- Bounds check of §4.5 (a) over a signal list. -/
def checkBounds (msgName : String) (lengthBytes : Nat) :
    List Signal → Except StructError Unit
  | [] => .ok ()
  | s :: rest =>
    if s.fitsIn lengthBytes then checkBounds msgName lengthBytes rest
    else .error (.signalOutOfBounds msgName s.name)

/-- Overlap check of one signal against the signals after it. -/
def checkOverlapOne (msgName : String) (s : Signal) :
    List Signal → Except StructError Unit
  | [] => .ok ()
  | t :: rest =>
    if s.overlapping t then .error (.overlappingSignals msgName s.name t.name)
    else checkOverlapOne msgName s rest

/-- Pairwise overlap check of §4.5 (b) over a signal list. -/
def checkOverlaps (msgName : String) : List Signal → Except StructError Unit
  | [] => .ok ()
  | s :: rest => do
    checkOverlapOne msgName s rest
    checkOverlaps msgName rest

/-- Duplicate-name check of §4.5 (c) over a signal list. -/
def checkNames (msgName : String) : List Signal → Except StructError Unit
  | [] => .ok ()
  | s :: rest =>
    if rest.any (fun t => t.name == s.name) then
      .error (.duplicateSignalName msgName s.name)
    else checkNames msgName rest

/-- Modelled from the spec: the Structural Validator of §4.5 for a
non-multiplexed message (all signals always active): every bit range inside
`[0, 8*length)`, pairwise disjoint bit ranges, unique signal names. -/
def Message.validate (m : Message) : Except StructError Unit := do
  checkBounds m.name m.length m.signals
  checkOverlaps m.name m.signals
  checkNames m.name m.signals

/-- Modelled from the spec: `Message.refresh(strict)` (`message.py`, not
under `src/`).  Per §4.5, when `strict` is true any violation found by the
Structural Validator fails the refresh; when `strict` is false violations
are tolerated.  The message data itself is not changed by a refresh. -/
def Message.refresh (m : Message) (strict : Bool) : Except StructError Unit :=
  if strict then m.validate else .ok ()

/-- Little-endian value of a byte buffer: bit `i` of byte `j` is bit
`8*j + i` of the value. -/
def bytesToNat : List Nat → Nat
  | [] => 0
  | b :: rest => b % 256 + 256 * bytesToNat rest

/-- The `n` little-endian bytes of a value. -/
def natToBytes : Nat → Nat → List Nat
  | 0, _ => []
  | n + 1, v => v % 256 :: natToBytes n (v / 256)

/-- Bit mask claimed by one signal inside the payload. -/
def Signal.bitMask (s : Signal) : Nat :=
  (2 ^ s.length - 1) <<< s.start_bit

/-- Write each signal's raw value into the accumulated payload value,
failing with a missing-value error when a signal has no entry in `values`
(§4.2 steps 3 and 5 for the modelled signal fragment). -/
def encodeFields (full : Nat) (values : List (String × Nat)) :
    List Signal → Nat → Except CodecError Nat
  | [], acc => .ok acc
  | s :: rest, acc =>
    match dictGet values s.name with
    | none => .error (.missingValue s.name)
    | some v =>
      let raw := v % 2 ^ s.length
      encodeFields full values rest
        ((acc &&& (full ^^^ s.bitMask)) ||| (raw <<< s.start_bit))

/-- Modelled from the spec: `Message.encode` (§4.2; `message.py` is not
under `src/`) for the modelled signal fragment: unsigned little-endian
integer signals with scale 1, offset 0, no bounds and no choices, on which
`scaling` and the `strict` range check are identities.  The buffer starts
all-zero, or all-one when `padding` is true, and each signal overwrites its
own bits. -/
def Message.encode (m : Message) (data : List (String × Nat))
    (scaling padding strict : Bool) : Except CodecError (List Nat) :=
  let full := 2 ^ (8 * m.length) - 1
  let base := if padding then full else 0
  (encodeFields full data m.signals base).map (natToBytes m.length)

/-- Modelled from the spec: `Message.decode` (§4.3; `message.py` is not
under `src/`) for the modelled signal fragment: fails when the buffer is
shorter than the declared message length, otherwise extracts each signal's
raw unsigned value; `decode_choices` and `scaling` are identities on the
modelled signals. -/
def Message.decode (m : Message) (data : List Nat)
    (decode_choices scaling : Bool) : Except CodecError (List (String × Nat)) :=
  if data.length < m.length then .error (.shortData m.name data.length m.length)
  else .ok (m.signals.map (fun s =>
    (s.name, (bytesToNat data >>> s.start_bit) % 2 ^ s.length)))

/-- `Database._add_message`: warn on a name collision, warn on a masked
frame id collision, then overwrite both index slots (source lines
286-308). -/
def Database.add_message (db : Database) (m : Message) :
    Database × List Warning :=
  let nameWarns :=
    match dictGet db.name_to_message m.name with
    | some old => [Warning.nameCollision old.name m.name]
    | none => []
  let masked := m.frame_id &&& db.frame_id_mask
  let idWarns :=
    match dictGet db.frame_id_to_message masked with
    | some old => [Warning.frameIdCollision old.name m.name masked]
    | none => []
  ({ db with
      name_to_message := dictSet db.name_to_message m.name m,
      frame_id_to_message := dictSet db.frame_id_to_message masked m },
   nameWarns ++ idWarns)

/-- The loop body of `Database.refresh` (source lines 445-447): for each
message in list order, run `message.refresh(self._strict)` — stopping with
the exception if it raises — and then `self._add_message(message)`,
accumulating warnings. -/
def refreshGo : List Message → Database → List Warning →
    Database × List Warning × Option StructError
  | [], db, ws => (db, ws, none)
  | m :: rest, db, ws =>
    match m.refresh db.strict with
    | .error e => (db, ws, some e)
    | .ok _ =>
      let (db', ws') := db.add_message m
      refreshGo rest db' (ws ++ ws')

/-- `Database.refresh` (source lines 433-447): clear both indices, then
re-index every message of the message list in order, refreshing each
message first.  The returned state is the state of the object when the
method returns or when the exception (third component) escapes. -/
def Database.refresh (db : Database) :
    Database × List Warning × Option StructError :=
  refreshGo db.messages
    { db with name_to_message := [], frame_id_to_message := [] } []

/-- `Database.__init__` (source lines 40-64): fields from the arguments,
`None` (and a falsy empty list) replaced by `[]`, mask defaulted to
`0xffffffff`, then `refresh`. -/
def Database.init (messages : Option (List Message)) (nodes : Option (List Node))
    (buses : Option (List Bus)) (version : Option String) (dbc : Option Nat)
    (autosar : Option Nat) (frame_id_mask : Option Nat) (strict : Bool) :
    Database × List Warning × Option StructError :=
  Database.refresh
    { messages := messages.getD []
      nodes := nodes.getD []
      buses := buses.getD []
      version := version
      dbc := dbc
      autosar := autosar
      name_to_message := []
      frame_id_to_message := []
      frame_id_mask := frame_id_mask.getD 0xffffffff
      strict := strict }

/-- `Database.add_arxml_string` (source lines 151-165) applied to the parse
result of the external ARXML loader: append the messages, replace nodes,
buses, version, dbc and autosar specifics wholesale, then `refresh`. -/
def Database.add_arxml_string (db : Database) (database : InternalDatabase) :
    Database × List Warning × Option StructError :=
  Database.refresh
    { db with
        messages := db.messages ++ database.messages
        nodes := database.nodes
        buses := database.buses
        version := database.version
        dbc := database.dbc
        autosar := database.autosar }

/-- `Database.add_dbc_string` (source lines 195-212) applied to the parse
result of the external DBC loader: append the messages, replace nodes,
buses, version and dbc specifics wholesale, then `refresh`. -/
def Database.add_dbc_string (db : Database) (database : InternalDatabase) :
    Database × List Warning × Option StructError :=
  Database.refresh
    { db with
        messages := db.messages ++ database.messages
        nodes := database.nodes
        buses := database.buses
        version := database.version
        dbc := database.dbc }

/-- `Database.add_kcd_string` (source lines 235-248), identical in shape to
`add_dbc_string`. -/
def Database.add_kcd_string (db : Database) (database : InternalDatabase) :
    Database × List Warning × Option StructError :=
  Database.refresh
    { db with
        messages := db.messages ++ database.messages
        nodes := database.nodes
        buses := database.buses
        version := database.version
        dbc := database.dbc }

/-- `Database.add_sym_string` (source lines 271-284), identical in shape to
`add_dbc_string`. -/
def Database.add_sym_string (db : Database) (database : InternalDatabase) :
    Database × List Warning × Option StructError :=
  Database.refresh
    { db with
        messages := db.messages ++ database.messages
        nodes := database.nodes
        buses := database.buses
        version := database.version
        dbc := database.dbc }

/-- `Database.get_message_by_name` (source lines 332-337): a plain
dictionary lookup, raising `KeyError` on a miss. -/
def Database.get_message_by_name (db : Database) (name : String) :
    Except DbError Message :=
  match dictGet db.name_to_message name with
  | some m => .ok m
  | none => .error (.keyErrorName name)

/-- `Database.get_message_by_frame_id` (source lines 339-344): look up
`frame_id & self._frame_id_mask` in the frame id index, raising `KeyError`
on a miss. -/
def Database.get_message_by_frame_id (db : Database) (frame_id : Nat) :
    Except DbError Message :=
  match dictGet db.frame_id_to_message (frame_id &&& db.frame_id_mask) with
  | some m => .ok m
  | none => .error (.keyErrorId (frame_id &&& db.frame_id_mask))

/-- `Database.get_node_by_name` (source lines 346-355): return the first
node with the given name, raising `KeyError(name)` when none matches. -/
def Database.get_node_by_name (db : Database) (name : String) :
    Except DbError Node :=
  match db.nodes.find? (fun node => node.name == name) with
  | some node => .ok node
  | none => .error (.keyErrorName name)

/-- `Database.get_bus_by_name` (source lines 357-366): return the first bus
with the given name, raising `KeyError(name)` when none matches. -/
def Database.get_bus_by_name (db : Database) (name : String) :
    Except DbError Bus :=
  match db.buses.find? (fun bus => bus.name == name) with
  | some bus => .ok bus
  | none => .error (.keyErrorName name)

/-- `Database.encode_message` (source lines 368-400): `isinstance` dispatch
on the key — an `int` key is looked up unmasked in the frame id index, a
`str` key in the name index, anything else raises `ValueError` — then the
resolved message encodes the data.  The method body never assigns to
`self`, so its state transformer is the identity. -/
def Database.encode_message (db : Database) (frame_id_or_name : FrameKey)
    (data : List (String × Nat)) (scaling padding strict : Bool) :
    Except DbError (List Nat) :=
  match frame_id_or_name with
  | .id f =>
    match dictGet db.frame_id_to_message f with
    | some m => (m.encode data scaling padding strict).mapError DbError.codec
    | none => .error (.keyErrorId f)
  | .name n =>
    match dictGet db.name_to_message n with
    | some m => (m.encode data scaling padding strict).mapError DbError.codec
    | none => .error (.keyErrorName n)
  | .other => .error .invalidKeyType

/-- `Database.decode_message` (source lines 402-431): the same dispatch as
`encode_message`, delegating to the resolved message's decode.  The method
body never assigns to `self`, so its state transformer is the identity. -/
def Database.decode_message (db : Database) (frame_id_or_name : FrameKey)
    (data : List Nat) (decode_choices scaling : Bool) :
    Except DbError (List (String × Nat)) :=
  match frame_id_or_name with
  | .id f =>
    match dictGet db.frame_id_to_message f with
    | some m => (m.decode data decode_choices scaling).mapError DbError.codec
    | none => .error (.keyErrorId f)
  | .name n =>
    match dictGet db.name_to_message n with
    | some m => (m.decode data decode_choices scaling).mapError DbError.codec
    | none => .error (.keyErrorName n)
  | .other => .error .invalidKeyType

/-- State-transformer view of `encode_message`: the pre-state paired with
the result; the method body contains no assignment to `self`. -/
def Database.encode_message_state (db : Database) (frame_id_or_name : FrameKey)
    (data : List (String × Nat)) (scaling padding strict : Bool) :
    Database × Except DbError (List Nat) :=
  (db, db.encode_message frame_id_or_name data scaling padding strict)

/-- State-transformer view of `decode_message`: the pre-state paired with
the result; the method body contains no assignment to `self`. -/
def Database.decode_message_state (db : Database) (frame_id_or_name : FrameKey)
    (data : List Nat) (decode_choices scaling : Bool) :
    Database × Except DbError (List (String × Nat)) :=
  (db, db.decode_message frame_id_or_name data decode_choices scaling)

/-- The last message of the list carrying the given name, if any: the
message that wins the name index slot. -/
def lastNamed : List Message → String → Option Message
  | [], _ => none
  | m :: rest, n =>
    match lastNamed rest n with
    | some r => some r
    | none => if m.name = n then some m else none

/-- The last message of the list whose masked frame id equals `k`, if any:
the message that wins the frame id index slot. -/
def lastMasked : List Message → Nat → Nat → Option Message
  | [], _, _ => none
  | m :: rest, mask, k =>
    match lastMasked rest mask k with
    | some r => some r
    | none => if m.frame_id &&& mask = k then some m else none

/-- The complement of a mask within the 32-bit id space of the default
`0xffffffff` mask; stands for the `~` of the specification's
`frame_id | ~frame_id_mask` formula.  (In Python `~mask` is the unbounded
two's complement, a negative number; either reading produces a key carrying
a bit outside the mask, and no such key is ever stored in the index, so the
choice of width does not affect any lookup.) -/
def complement32 (mask : Nat) : Nat := (2 ^ 32 - 1) ^^^ mask

/-- The state reached by the body of `refresh` after re-indexing a list of
messages: the fold of `_add_message` over the list. -/
def indexAll : Database → List Message → Database
  | db, [] => db
  | db, m :: rest => indexAll (db.add_message m).1 rest

/-- The warnings reported while re-indexing a list of messages. -/
def warnsAll : Database → List Message → List Warning
  | _, [] => []
  | db, m :: rest => (db.add_message m).2 ++ warnsAll (db.add_message m).1 rest

/-- The `Database` state with both indices cleared, as at the start of the
body of `refresh`. -/
def clearIndices (db : Database) : Database :=
  { db with name_to_message := [], frame_id_to_message := [] }

/-- The invariant of claim C10: every key of the frame id index is already
masked. -/
def maskedKeys (db : Database) : Prop :=
  ∀ q ∈ db.frame_id_to_message, q.1 &&& db.frame_id_mask = q.1

/-- Test fixtures: small concrete messages and databases used by the
witnesses and counterexamples below. -/
def msgM1 : Message := { name := "M", frame_id := 1, length := 1, signals := [] }

def msgM2 : Message := { name := "M", frame_id := 2, length := 1, signals := [] }

def msgN3 : Message := { name := "N", frame_id := 1, length := 1, signals := [] }

def staleMsg : Message :=
  { name := "Stale", frame_id := 99, length := 1, signals := [] }

/-- A database whose indices hold stale entries, to exercise the rebuild. -/
def dbC3 : Database :=
  { messages := [msgM1, msgM2, msgN3]
    nodes := []
    buses := []
    version := none
    dbc := none
    autosar := none
    name_to_message := [("Stale", staleMsg)]
    frame_id_to_message := [(99, staleMsg)]
    frame_id_mask := 0xffffffff
    strict := true }

def msgBar : Message :=
  { name := "Bar", frame_id := 0x12, length := 1, signals := [] }

def dbC4 : Database :=
  (Database.init (some [msgBar]) none none none none none (some 0xff) true).1

def badSig : Signal := { name := "B", start_bit := 0, length := 9 }

def msgBad : Message :=
  { name := "Bad", frame_id := 7, length := 1, signals := [badSig] }

def dbC6 : Database :=
  { messages := [msgM1, msgBad, msgN3]
    nodes := []
    buses := []
    version := none
    dbc := none
    autosar := none
    name_to_message := []
    frame_id_to_message := []
    frame_id_mask := 0xffffffff
    strict := true }

def msgP : Message := { name := "P", frame_id := 0x05, length := 1, signals := [] }

def msgQ : Message := { name := "Q", frame_id := 0x105, length := 1, signals := [] }

def dbC2n : Database :=
  { messages := [msgM1, msgM2]
    nodes := []
    buses := []
    version := none
    dbc := none
    autosar := none
    name_to_message := []
    frame_id_to_message := []
    frame_id_mask := 0xffffffff
    strict := true }

def dbC2i : Database :=
  { messages := [msgP, msgQ]
    nodes := []
    buses := []
    version := none
    dbc := none
    autosar := none
    name_to_message := []
    frame_id_to_message := []
    frame_id_mask := 0xff
    strict := true }

def nodeN1 : Node := { name := "N1" }

def busB1 : Bus := { name := "B1" }

def dbC7 : Database :=
  { messages := []
    nodes := [nodeN1]
    buses := [busB1]
    version := none
    dbc := none
    autosar := none
    name_to_message := []
    frame_id_to_message := []
    frame_id_mask := 0xffffffff
    strict := true }

def sigS : Signal := { name := "S", start_bit := 0, length := 8 }

def msgFoo : Message :=
  { name := "Foo", frame_id := 0x12, length := 1, signals := [sigS] }

/-- A database with frame id mask 0xf; the message with frame id 0x12 is
indexed under its masked id 2. -/
def dbC1 : Database :=
  (Database.init (some [msgFoo]) none none none none none (some 0xf) true).1

def msgA0 : Message := { name := "A", frame_id := 0, length := 1, signals := [] }

def msgB32 : Message :=
  { name := "B", frame_id := 4294967296, length := 1, signals := [] }

/-- A database built with the default mask holding messages with frame ids
0 and 2^32. -/
def dbC9 : Database :=
  (Database.init (some [msgA0, msgB32]) none none none none none none true).1

theorem dictGet_nil {α β : Type} [DecidableEq α] (k : α) :
    dictGet ([] : List (α × β)) k = none := rfl

theorem dictGet_set_self {α β : Type} [DecidableEq α] (d : List (α × β))
    (k : α) (v : β) : dictGet (dictSet d k v) k = some v := by
  simp [dictGet, dictSet]

theorem dictGet_set_ne {α β : Type} [DecidableEq α] (d : List (α × β))
    (k k' : α) (v : β) (h : k ≠ k') :
    dictGet (dictSet d k v) k' = dictGet d k' := by
  simp [dictGet, dictSet, List.find?, h]

theorem add_message_fst (db : Database) (m : Message) :
    (db.add_message m).1 = { db with
      name_to_message := dictSet db.name_to_message m.name m,
      frame_id_to_message :=
        dictSet db.frame_id_to_message (m.frame_id &&& db.frame_id_mask) m } :=
  rfl

theorem indexAll_strict (ms : List Message) (db : Database) :
    (indexAll db ms).strict = db.strict := by
  induction ms generalizing db with
  | nil => rfl
  | cons m rest ih => simp [indexAll, ih, add_message_fst]

theorem indexAll_mask (ms : List Message) (db : Database) :
    (indexAll db ms).frame_id_mask = db.frame_id_mask := by
  induction ms generalizing db with
  | nil => rfl
  | cons m rest ih => simp [indexAll, ih, add_message_fst]

theorem indexAll_messages (ms : List Message) (db : Database) :
    (indexAll db ms).messages = db.messages := by
  induction ms generalizing db with
  | nil => rfl
  | cons m rest ih => simp [indexAll, ih, add_message_fst]

theorem indexAll_nodes (ms : List Message) (db : Database) :
    (indexAll db ms).nodes = db.nodes := by
  induction ms generalizing db with
  | nil => rfl
  | cons m rest ih => simp [indexAll, ih, add_message_fst]

theorem indexAll_buses (ms : List Message) (db : Database) :
    (indexAll db ms).buses = db.buses := by
  induction ms generalizing db with
  | nil => rfl
  | cons m rest ih => simp [indexAll, ih, add_message_fst]

theorem indexAll_version (ms : List Message) (db : Database) :
    (indexAll db ms).version = db.version := by
  induction ms generalizing db with
  | nil => rfl
  | cons m rest ih => simp [indexAll, ih, add_message_fst]

theorem indexAll_dbc (ms : List Message) (db : Database) :
    (indexAll db ms).dbc = db.dbc := by
  induction ms generalizing db with
  | nil => rfl
  | cons m rest ih => simp [indexAll, ih, add_message_fst]

theorem indexAll_autosar (ms : List Message) (db : Database) :
    (indexAll db ms).autosar = db.autosar := by
  induction ms generalizing db with
  | nil => rfl
  | cons m rest ih => simp [indexAll, ih, add_message_fst]

theorem indexAll_append (xs ys : List Message) (db : Database) :
    indexAll db (xs ++ ys) = indexAll (indexAll db xs) ys := by
  induction xs generalizing db with
  | nil => simp [indexAll]
  | cons m rest ih => simp [indexAll, ih]

theorem warnsAll_append (xs ys : List Message) (db : Database) :
    warnsAll db (xs ++ ys) = warnsAll db xs ++ warnsAll (indexAll db xs) ys := by
  induction xs generalizing db with
  | nil => simp [warnsAll, indexAll]
  | cons m rest ih => simp [warnsAll, indexAll, ih]

theorem lastNamed_cons (m : Message) (rest : List Message) (n : String) :
    lastNamed (m :: rest) n =
      (lastNamed rest n).or (if m.name = n then some m else none) := by
  cases h : lastNamed rest n <;> simp [lastNamed, h]

theorem lastNamed_append (xs ys : List Message) (n : String) :
    lastNamed (xs ++ ys) n = (lastNamed ys n).or (lastNamed xs n) := by
  induction xs with
  | nil => simp [lastNamed, Option.or_none]
  | cons m rest ih =>
    rw [List.cons_append, lastNamed_cons, ih, lastNamed_cons, Option.or_assoc]

theorem lastNamed_eq_none (l : List Message) (n : String)
    (h : ∀ c ∈ l, c.name ≠ n) : lastNamed l n = none := by
  induction l with
  | nil => rfl
  | cons m rest ih =>
    rw [lastNamed_cons, ih (fun c hc => h c (List.mem_cons_of_mem m hc)),
      if_neg (h m (List.mem_cons_self m rest))]
    rfl

theorem lastMasked_cons (m : Message) (rest : List Message) (mask k : Nat) :
    lastMasked (m :: rest) mask k =
      (lastMasked rest mask k).or
        (if m.frame_id &&& mask = k then some m else none) := by
  cases h : lastMasked rest mask k <;> simp [lastMasked, h]

theorem lastMasked_append (xs ys : List Message) (mask k : Nat) :
    lastMasked (xs ++ ys) mask k =
      (lastMasked ys mask k).or (lastMasked xs mask k) := by
  induction xs with
  | nil => simp [lastMasked, Option.or_none]
  | cons m rest ih =>
    rw [List.cons_append, lastMasked_cons, ih, lastMasked_cons, Option.or_assoc]

theorem lastMasked_eq_none (l : List Message) (mask k : Nat)
    (h : ∀ c ∈ l, c.frame_id &&& mask ≠ k) : lastMasked l mask k = none := by
  induction l with
  | nil => rfl
  | cons m rest ih =>
    rw [lastMasked_cons, ih (fun c hc => h c (List.mem_cons_of_mem m hc)),
      if_neg (h m (List.mem_cons_self m rest))]
    rfl

theorem indexAll_name_index (ms : List Message) (db : Database) (n : String) :
    dictGet (indexAll db ms).name_to_message n =
      (lastNamed ms n).or (dictGet db.name_to_message n) := by
  induction ms generalizing db with
  | nil => simp [indexAll, lastNamed]
  | cons m rest ih =>
    rw [indexAll, ih, add_message_fst, lastNamed_cons, Option.or_assoc]
    by_cases hn : m.name = n
    · subst hn
      simp [dictGet_set_self]
    · simp [hn, dictGet_set_ne _ _ _ _ hn]

theorem indexAll_id_index (ms : List Message) (db : Database) (k : Nat) :
    dictGet (indexAll db ms).frame_id_to_message k =
      (lastMasked ms db.frame_id_mask k).or
        (dictGet db.frame_id_to_message k) := by
  induction ms generalizing db with
  | nil => simp [indexAll, lastMasked]
  | cons m rest ih =>
    rw [indexAll, ih, add_message_fst, lastMasked_cons, Option.or_assoc]
    by_cases hk : m.frame_id &&& db.frame_id_mask = k
    · rw [if_pos hk, hk]
      simp [dictGet_set_self]
    · simp [hk, dictGet_set_ne _ _ _ _ hk]

theorem refreshGo_append (xs ys : List Message) (db : Database)
    (ws : List Warning) (h : ∀ m ∈ xs, m.refresh db.strict = .ok ()) :
    refreshGo (xs ++ ys) db ws =
      refreshGo ys (indexAll db xs) (ws ++ warnsAll db xs) := by
  induction xs generalizing db ws with
  | nil => simp [indexAll, warnsAll]
  | cons m rest ih =>
    have hm : m.refresh db.strict = .ok () := h m (List.mem_cons_self m rest)
    have hstrict : (db.add_message m).1.strict = db.strict := by
      rw [add_message_fst]
    have hrest : ∀ c ∈ rest, c.refresh (db.add_message m).1.strict = .ok () := by
      intro c hc
      rw [hstrict]
      exact h c (List.mem_cons_of_mem m hc)
    rw [List.cons_append]
    rw [show refreshGo (m :: (rest ++ ys)) db ws =
        refreshGo (rest ++ ys) (db.add_message m).1 (ws ++ (db.add_message m).2)
      from by rw [refreshGo, hm]]
    rw [ih (db.add_message m).1 (ws ++ (db.add_message m).2) hrest]
    simp [indexAll, warnsAll]

theorem refresh_ok (db : Database)
    (h : ∀ m ∈ db.messages, m.refresh db.strict = .ok ()) :
    db.refresh = (indexAll (clearIndices db) db.messages,
      warnsAll (clearIndices db) db.messages, none) := by
  have h' : ∀ m ∈ db.messages, m.refresh (clearIndices db).strict = .ok () := h
  have := refreshGo_append db.messages [] (clearIndices db) [] h'
  rw [List.append_nil] at this
  rw [Database.refresh]
  rw [show ({ db with name_to_message := [], frame_id_to_message := [] } :
    Database) = clearIndices db from rfl]
  rw [this]
  rfl

theorem refresh_name_char (db : Database)
    (h : ∀ m ∈ db.messages, m.refresh db.strict = .ok ()) (n : String) :
    dictGet db.refresh.1.name_to_message n = lastNamed db.messages n := by
  rw [refresh_ok db h]
  show dictGet (indexAll (clearIndices db) db.messages).name_to_message n = _
  rw [indexAll_name_index]
  show (lastNamed db.messages n).or (dictGet [] n) = _
  rw [dictGet_nil, Option.or_none]

theorem refresh_id_char (db : Database)
    (h : ∀ m ∈ db.messages, m.refresh db.strict = .ok ()) (k : Nat) :
    dictGet db.refresh.1.frame_id_to_message k =
      lastMasked db.messages db.frame_id_mask k := by
  rw [refresh_ok db h]
  show dictGet (indexAll (clearIndices db) db.messages).frame_id_to_message k = _
  rw [indexAll_id_index]
  show (lastMasked db.messages db.frame_id_mask k).or (dictGet [] k) = _
  rw [dictGet_nil, Option.or_none]

theorem refreshGo_messages (ms : List Message) (db : Database)
    (ws : List Warning) : (refreshGo ms db ws).1.messages = db.messages := by
  induction ms generalizing db ws with
  | nil => rfl
  | cons m rest ih =>
    cases hm : m.refresh db.strict with
    | error e => simp [refreshGo, hm]
    | ok u => simp [refreshGo, hm, ih, add_message_fst]

theorem refresh_messages (db : Database) :
    db.refresh.1.messages = db.messages := by
  rw [Database.refresh, refreshGo_messages]

theorem refreshGo_nodes (ms : List Message) (db : Database)
    (ws : List Warning) : (refreshGo ms db ws).1.nodes = db.nodes := by
  induction ms generalizing db ws with
  | nil => rfl
  | cons m rest ih =>
    cases hm : m.refresh db.strict with
    | error e => simp [refreshGo, hm]
    | ok u => simp [refreshGo, hm, ih, add_message_fst]

theorem refreshGo_buses (ms : List Message) (db : Database)
    (ws : List Warning) : (refreshGo ms db ws).1.buses = db.buses := by
  induction ms generalizing db ws with
  | nil => rfl
  | cons m rest ih =>
    cases hm : m.refresh db.strict with
    | error e => simp [refreshGo, hm]
    | ok u => simp [refreshGo, hm, ih, add_message_fst]

theorem refreshGo_version (ms : List Message) (db : Database)
    (ws : List Warning) : (refreshGo ms db ws).1.version = db.version := by
  induction ms generalizing db ws with
  | nil => rfl
  | cons m rest ih =>
    cases hm : m.refresh db.strict with
    | error e => simp [refreshGo, hm]
    | ok u => simp [refreshGo, hm, ih, add_message_fst]

theorem refreshGo_mask (ms : List Message) (db : Database)
    (ws : List Warning) :
    (refreshGo ms db ws).1.frame_id_mask = db.frame_id_mask := by
  induction ms generalizing db ws with
  | nil => rfl
  | cons m rest ih =>
    cases hm : m.refresh db.strict with
    | error e => simp [refreshGo, hm]
    | ok u => simp [refreshGo, hm, ih, add_message_fst]

theorem refresh_nodes (db : Database) : db.refresh.1.nodes = db.nodes := by
  rw [Database.refresh, refreshGo_nodes]

theorem refresh_buses (db : Database) : db.refresh.1.buses = db.buses := by
  rw [Database.refresh, refreshGo_buses]

theorem refresh_version (db : Database) :
    db.refresh.1.version = db.version := by
  rw [Database.refresh, refreshGo_version]

theorem refresh_mask (db : Database) :
    db.refresh.1.frame_id_mask = db.frame_id_mask := by
  rw [Database.refresh, refreshGo_mask]

theorem add_message_snd (db : Database) (m : Message) :
    (db.add_message m).2 =
      (match dictGet db.name_to_message m.name with
        | some old => [Warning.nameCollision old.name m.name]
        | none => []) ++
      (match dictGet db.frame_id_to_message (m.frame_id &&& db.frame_id_mask) with
        | some old =>
          [Warning.frameIdCollision old.name m.name (m.frame_id &&& db.frame_id_mask)]
        | none => []) :=
  rfl

theorem dictGet_mem {α β : Type} [DecidableEq α] (d : List (α × β)) (k : α)
    (v : β) (h : dictGet d k = some v) : (k, v) ∈ d := by
  unfold dictGet at h
  cases hf : d.find? (fun p => decide (p.1 = k)) with
  | none => rw [hf] at h; cases h
  | some q =>
    rw [hf] at h
    have hq := List.find?_some hf
    have hmem : q ∈ d := List.mem_of_find?_eq_some hf
    have hk : q.1 = k := by simpa using hq
    have hv : q.2 = v := by
      simpa using h
    have : (k, v) = q := by
      cases q
      simp_all
    rw [this]
    exact hmem

theorem land_land_self (a b : Nat) : (a &&& b) &&& b = a &&& b := by
  apply Nat.eq_of_testBit_eq
  intro i
  simp [Nat.testBit_land, Bool.and_assoc]

theorem land_mask32_of_lt (f : Nat) (hf : f < 2 ^ 32) :
    f &&& 0xffffffff = f := by
  apply Nat.eq_of_testBit_eq
  intro i
  rw [show (0xffffffff : Nat) = 2 ^ 32 - 1 from rfl]
  rw [Nat.testBit_land, Nat.testBit_two_pow_sub_one]
  by_cases hi : i < 32
  · simp [hi]
  · have hz : f.testBit i = false :=
      Nat.testBit_lt_two_pow
        (Nat.lt_of_lt_of_le hf (Nat.pow_le_pow_right (by omega) (by omega)))
    simp [hz]

theorem add_message_masked (db : Database) (m : Message) (h : maskedKeys db) :
    maskedKeys (db.add_message m).1 := by
  intro q hq
  rw [add_message_fst] at hq
  rw [add_message_fst]
  rcases List.mem_cons.mp hq with hq1 | hq2
  · rw [hq1]
    exact land_land_self m.frame_id db.frame_id_mask
  · exact h q hq2

theorem refreshGo_masked (ms : List Message) (db : Database)
    (ws : List Warning) (h : maskedKeys db) :
    maskedKeys (refreshGo ms db ws).1 := by
  induction ms generalizing db ws with
  | nil => exact h
  | cons m rest ih =>
    cases hm : m.refresh db.strict with
    | error e =>
      rw [show refreshGo (m :: rest) db ws = (db, ws, some e)
        from by rw [refreshGo, hm]]
      exact h
    | ok u =>
      rw [show refreshGo (m :: rest) db ws =
          refreshGo rest (db.add_message m).1 (ws ++ (db.add_message m).2)
        from by rw [refreshGo, hm]]
      exact ih _ _ (add_message_masked db m h)

theorem refresh_masked (db : Database) : maskedKeys db.refresh.1 := by
  rw [Database.refresh]
  apply refreshGo_masked
  intro q hq
  exact absurd hq (List.not_mem_nil q)

/-- C3: `refresh()` discards both indices entirely (its result does not
depend on their prior contents) and rebuilds them from the messages list in
order, leaving the messages list unchanged; after a successful refresh the
name index maps exactly each message name to its last occurrence in list
order, and the frame id index maps exactly each masked frame id to its last
occurrence in list order. -/
theorem C3_refresh_rebuilds (db : Database)
    (X : List (String × Message)) (Y : List (Nat × Message))
    (h : ∀ m ∈ db.messages, m.refresh db.strict = .ok ()) :
    ({ db with name_to_message := X, frame_id_to_message := Y } :
        Database).refresh = db.refresh ∧
    db.refresh.2.2 = none ∧
    db.refresh.1.messages = db.messages ∧
    (∀ n, dictGet db.refresh.1.name_to_message n = lastNamed db.messages n) ∧
    (∀ k, dictGet db.refresh.1.frame_id_to_message k =
      lastMasked db.messages db.frame_id_mask k) := by
  refine ⟨rfl, ?_, refresh_messages db, refresh_name_char db h,
    refresh_id_char db h⟩
  rw [refresh_ok db h]

/-- Witness for C3 at a concrete database: the stale index entries vanish,
the duplicate name "M" maps to its later message, and the shared masked
frame id 1 maps to its later message. -/
theorem C3_witness :
    dbC3.refresh.2.2 = none ∧
    dictGet dbC3.refresh.1.name_to_message "M" = some msgM2 ∧
    dictGet dbC3.refresh.1.name_to_message "Stale" = none ∧
    dictGet dbC3.refresh.1.frame_id_to_message 1 = some msgN3 ∧
    dictGet dbC3.refresh.1.frame_id_to_message 99 = none := by
  have h := C3_refresh_rebuilds dbC3 [] [] (by decide)
  refine ⟨h.2.1, ?_, ?_, ?_, ?_⟩
  · rw [h.2.2.2.1]; decide
  · rw [h.2.2.2.1]; decide
  · rw [h.2.2.2.2]; decide
  · rw [h.2.2.2.2]; decide

/-- C4: `get_message_by_frame_id(f)` returns the message stored in the
frame id index under `f & frame_id_mask`, so two ids whose difference is
cleared by the mask resolve to the same message. -/
theorem C4_get_by_frame_id_masks (db : Database) (f g : Nat) (m : Message)
    (hm : dictGet db.frame_id_to_message (f &&& db.frame_id_mask) = some m)
    (hfg : f &&& db.frame_id_mask = g &&& db.frame_id_mask) :
    db.get_message_by_frame_id f = .ok m ∧
    db.get_message_by_frame_id f = db.get_message_by_frame_id g := by
  constructor
  · rw [Database.get_message_by_frame_id, hm]
  · rw [Database.get_message_by_frame_id, Database.get_message_by_frame_id,
      hfg]

/-- Witness for C4: with mask 0xff, ids 0x112 and 0x212 both resolve to the
message indexed under 0x12. -/
theorem C4_witness :
    dbC4.get_message_by_frame_id 0x112 = .ok msgBar ∧
    dbC4.get_message_by_frame_id 0x112 = dbC4.get_message_by_frame_id 0x212 :=
  C4_get_by_frame_id_masks dbC4 0x112 0x212 msgBar (by decide) (by decide)

/-- C5: each `add_*_string` operation (applied to a successfully parsed
source) appends the parsed messages to the end of the existing messages
list, replaces the nodes, buses and version fields wholesale with the
newly loaded values, and then calls `refresh` on the updated state. -/
theorem C5_add_string_effects (db : Database) (parsed : InternalDatabase) :
    ((db.add_dbc_string parsed).1.messages = db.messages ++ parsed.messages ∧
      (db.add_dbc_string parsed).1.nodes = parsed.nodes ∧
      (db.add_dbc_string parsed).1.buses = parsed.buses ∧
      (db.add_dbc_string parsed).1.version = parsed.version ∧
      db.add_dbc_string parsed = Database.refresh { db with
        messages := db.messages ++ parsed.messages, nodes := parsed.nodes,
        buses := parsed.buses, version := parsed.version,
        dbc := parsed.dbc }) ∧
    ((db.add_kcd_string parsed).1.messages = db.messages ++ parsed.messages ∧
      (db.add_kcd_string parsed).1.nodes = parsed.nodes ∧
      (db.add_kcd_string parsed).1.buses = parsed.buses ∧
      (db.add_kcd_string parsed).1.version = parsed.version ∧
      db.add_kcd_string parsed = Database.refresh { db with
        messages := db.messages ++ parsed.messages, nodes := parsed.nodes,
        buses := parsed.buses, version := parsed.version,
        dbc := parsed.dbc }) ∧
    ((db.add_sym_string parsed).1.messages = db.messages ++ parsed.messages ∧
      (db.add_sym_string parsed).1.nodes = parsed.nodes ∧
      (db.add_sym_string parsed).1.buses = parsed.buses ∧
      (db.add_sym_string parsed).1.version = parsed.version ∧
      db.add_sym_string parsed = Database.refresh { db with
        messages := db.messages ++ parsed.messages, nodes := parsed.nodes,
        buses := parsed.buses, version := parsed.version,
        dbc := parsed.dbc }) ∧
    ((db.add_arxml_string parsed).1.messages = db.messages ++ parsed.messages ∧
      (db.add_arxml_string parsed).1.nodes = parsed.nodes ∧
      (db.add_arxml_string parsed).1.buses = parsed.buses ∧
      (db.add_arxml_string parsed).1.version = parsed.version ∧
      db.add_arxml_string parsed = Database.refresh { db with
        messages := db.messages ++ parsed.messages, nodes := parsed.nodes,
        buses := parsed.buses, version := parsed.version,
        dbc := parsed.dbc, autosar := parsed.autosar }) := by
  exact ⟨⟨refresh_messages _, refresh_nodes _, refresh_buses _,
      refresh_version _, rfl⟩,
    ⟨refresh_messages _, refresh_nodes _, refresh_buses _,
      refresh_version _, rfl⟩,
    ⟨refresh_messages _, refresh_nodes _, refresh_buses _,
      refresh_version _, rfl⟩,
    ⟨refresh_messages _, refresh_nodes _, refresh_buses _,
      refresh_version _, rfl⟩⟩

/-- C8: `encode_message` and `decode_message` called with a
`frame_id_or_name` that is neither an integer nor a string raise
`ValueError`, and the database state is not mutated by the call (the state
transformer of either method is the identity). -/
theorem C8_invalid_key_type (db : Database) (values : List (String × Nat))
    (data : List Nat) (sc p st dc : Bool) :
    db.encode_message .other values sc p st = .error .invalidKeyType ∧
    db.decode_message .other data dc sc = .error .invalidKeyType ∧
    db.encode_message_state .other values sc p st =
      (db, .error .invalidKeyType) ∧
    db.decode_message_state .other data dc sc = (db, .error .invalidKeyType) :=
  ⟨rfl, rfl, rfl, rfl⟩

/-- C10: after construction, after every `add_*_string` and after every
`refresh` — even one that fails part way through — every key of the frame
id index is already masked (`k & frame_id_mask = k`), because the index is
only populated through `_add_message`, which masks before inserting. -/
theorem C10_frame_id_keys_masked :
    (∀ db : Database, maskedKeys db.refresh.1) ∧
    (∀ (messages : Option (List Message)) (nodes : Option (List Node))
      (buses : Option (List Bus)) (version : Option String)
      (dbc autosar mask : Option Nat) (strictFlag : Bool),
      maskedKeys
        (Database.init messages nodes buses version dbc autosar mask
          strictFlag).1) ∧
    (∀ (db : Database) (parsed : InternalDatabase),
      maskedKeys (db.add_dbc_string parsed).1 ∧
      maskedKeys (db.add_kcd_string parsed).1 ∧
      maskedKeys (db.add_sym_string parsed).1 ∧
      maskedKeys (db.add_arxml_string parsed).1) :=
  ⟨fun db => refresh_masked db,
    fun _ _ _ _ _ _ _ _ => refresh_masked _,
    fun _ _ => ⟨refresh_masked _, refresh_masked _, refresh_masked _,
      refresh_masked _⟩⟩

/-- C6: during a database `refresh` with `strict` true, a structural
validation error raised by a single message's refresh makes the whole
database refresh fail with that error (the exception propagates to the
caller), while the messages list — and with it every other message object —
is left unchanged by the failed refresh. -/
theorem C6_strict_refresh_propagates (db : Database) (l1 l2 : List Message)
    (bad : Message) (e : StructError)
    (hms : db.messages = l1 ++ bad :: l2)
    (hstrict : db.strict = true)
    (hok : ∀ m ∈ l1, m.refresh true = .ok ())
    (hbad : bad.refresh true = .error e) :
    db.refresh.2.2 = some e ∧ db.refresh.1.messages = db.messages := by
  refine ⟨?_, refresh_messages db⟩
  rw [Database.refresh]
  rw [show ({ db with name_to_message := [], frame_id_to_message := [] } : Database) = clearIndices db from rfl]
  rw [hms]
  rw [refreshGo_append l1 (bad :: l2) (clearIndices db) [] (by
    intro m hm
    show m.refresh db.strict = .ok ()
    rw [hstrict]
    exact hok m hm)]
  rw [refreshGo, indexAll_strict]
  simp only [clearIndices, hstrict, hbad]

/-- Witness for C6: a message with a 9-bit signal in a 1-byte payload fails
the strict refresh with an out-of-bounds error and the messages list is
untouched. -/
theorem C6_witness :
    dbC6.refresh.2.2 = some (.signalOutOfBounds "Bad" "B") ∧
    dbC6.refresh.1.messages = [msgM1, msgBad, msgN3] :=
  C6_strict_refresh_propagates dbC6 [msgM1] [msgN3] msgBad
    (.signalOutOfBounds "Bad" "B") rfl rfl (by decide) (by decide)

/-- C2: when the messages list contains two messages `a` (earlier) and `b`
(later) with the same name — or the same masked frame id — and `b` is the
last such message, a successful `refresh` raises nothing, keeps both
messages in the list, makes the index return the later message `b`, and
reports the collision as a warning. -/
theorem C2_collision_shadowing :
    (∀ (db : Database) (l1 l2 l3 : List Message) (a b : Message),
      db.messages = l1 ++ a :: l2 ++ b :: l3 →
      a.name = b.name →
      (∀ c ∈ l2, c.name ≠ a.name) →
      (∀ c ∈ l3, c.name ≠ a.name) →
      (∀ m ∈ db.messages, m.refresh db.strict = .ok ()) →
      db.refresh.2.2 = none ∧
      db.refresh.1.messages = db.messages ∧
      a ∈ db.refresh.1.messages ∧ b ∈ db.refresh.1.messages ∧
      dictGet db.refresh.1.name_to_message a.name = some b ∧
      Warning.nameCollision a.name b.name ∈ db.refresh.2.1) ∧
    (∀ (db : Database) (l1 l2 l3 : List Message) (a b : Message),
      db.messages = l1 ++ a :: l2 ++ b :: l3 →
      a.frame_id &&& db.frame_id_mask = b.frame_id &&& db.frame_id_mask →
      (∀ c ∈ l2, c.frame_id &&& db.frame_id_mask ≠
        a.frame_id &&& db.frame_id_mask) →
      (∀ c ∈ l3, c.frame_id &&& db.frame_id_mask ≠
        a.frame_id &&& db.frame_id_mask) →
      (∀ m ∈ db.messages, m.refresh db.strict = .ok ()) →
      db.refresh.2.2 = none ∧
      db.refresh.1.messages = db.messages ∧
      a ∈ db.refresh.1.messages ∧ b ∈ db.refresh.1.messages ∧
      dictGet db.refresh.1.frame_id_to_message
        (a.frame_id &&& db.frame_id_mask) = some b ∧
      Warning.frameIdCollision a.name b.name
        (a.frame_id &&& db.frame_id_mask) ∈ db.refresh.2.1) := by
  constructor
  · intro db l1 l2 l3 a b hms hab h2 h3 hok
    have herr : db.refresh.2.2 = none := by rw [refresh_ok db hok]
    have hmsg : db.refresh.1.messages = db.messages := refresh_messages db
    refine ⟨herr, hmsg, ?_, ?_, ?_, ?_⟩
    · rw [hmsg, hms]; simp
    · rw [hmsg, hms]; simp
    · rw [refresh_name_char db hok, hms, lastNamed_append, lastNamed_cons,
        lastNamed_append, lastNamed_cons, lastNamed_eq_none l3 a.name h3,
        if_pos hab.symm]
      simp
    · have hsplit : l1 ++ a :: l2 ++ b :: l3 = (l1 ++ a :: l2) ++ b :: l3 := by
        simp
      have hname :
          dictGet (indexAll (clearIndices db) (l1 ++ a :: l2)).name_to_message
            b.name = some a := by
        rw [indexAll_name_index]
        show (lastNamed (l1 ++ a :: l2) b.name).or (dictGet [] b.name) = some a
        rw [dictGet_nil, Option.or_none, lastNamed_append, lastNamed_cons,
          lastNamed_eq_none l2 b.name (fun c hc => hab ▸ h2 c hc),
          if_pos hab]
        rfl
      have hmem : Warning.nameCollision a.name b.name ∈
          ((indexAll (clearIndices db) (l1 ++ a :: l2)).add_message b).2 := by
        rw [add_message_snd, hname]
        simp [hab]
      rw [refresh_ok db hok]
      show Warning.nameCollision a.name b.name ∈
        warnsAll (clearIndices db) db.messages
      rw [hms, hsplit, warnsAll_append, warnsAll]
      exact List.mem_append_right _ (List.mem_append_left _ hmem)
  · intro db l1 l2 l3 a b hms hab h2 h3 hok
    have hmask0 : (clearIndices db).frame_id_mask = db.frame_id_mask := rfl
    have herr : db.refresh.2.2 = none := by rw [refresh_ok db hok]
    have hmsg : db.refresh.1.messages = db.messages := refresh_messages db
    refine ⟨herr, hmsg, ?_, ?_, ?_, ?_⟩
    · rw [hmsg, hms]; simp
    · rw [hmsg, hms]; simp
    · rw [refresh_id_char db hok, hms, lastMasked_append, lastMasked_cons,
        lastMasked_append, lastMasked_cons,
        lastMasked_eq_none l3 db.frame_id_mask
          (a.frame_id &&& db.frame_id_mask) h3,
        if_pos hab.symm]
      simp
    · have hsplit : l1 ++ a :: l2 ++ b :: l3 = (l1 ++ a :: l2) ++ b :: l3 := by
        simp
      set dbx := indexAll (clearIndices db) (l1 ++ a :: l2) with hdbx
      have hmaskx : dbx.frame_id_mask = db.frame_id_mask := by
        rw [hdbx, indexAll_mask]
        exact hmask0
      have hid :
          dictGet dbx.frame_id_to_message
            (b.frame_id &&& dbx.frame_id_mask) = some a := by
        rw [hdbx, indexAll_id_index]
        show (lastMasked (l1 ++ a :: l2) (clearIndices db).frame_id_mask
            (b.frame_id &&& dbx.frame_id_mask)).or
          (dictGet [] (b.frame_id &&& dbx.frame_id_mask)) = some a
        rw [dictGet_nil, Option.or_none, hmask0, hmaskx, ← hab,
          lastMasked_append, lastMasked_cons,
          lastMasked_eq_none l2 db.frame_id_mask
            (a.frame_id &&& db.frame_id_mask) h2,
          if_pos rfl]
        rfl
      have hmem : Warning.frameIdCollision a.name b.name
          (a.frame_id &&& db.frame_id_mask) ∈ (dbx.add_message b).2 := by
        rw [add_message_snd, hid]
        have : b.frame_id &&& dbx.frame_id_mask =
            a.frame_id &&& db.frame_id_mask := by
          rw [hmaskx, ← hab]
        rw [this]
        simp
      rw [refresh_ok db hok]
      show Warning.frameIdCollision a.name b.name
          (a.frame_id &&& db.frame_id_mask) ∈
        warnsAll (clearIndices db) db.messages
      rw [hms, hsplit, warnsAll_append, warnsAll]
      exact List.mem_append_right _ (List.mem_append_left _ hmem)

/-- Witness for C2: two messages named "M" shadow in the name index with a
warning, and two messages with masked frame id 5 under mask 0xff shadow in
the frame id index with a warning; both lists keep both messages and no
error is raised. -/
theorem C2_witness :
    (dbC2n.refresh.2.2 = none ∧
      dbC2n.refresh.1.messages = dbC2n.messages ∧
      msgM1 ∈ dbC2n.refresh.1.messages ∧ msgM2 ∈ dbC2n.refresh.1.messages ∧
      dictGet dbC2n.refresh.1.name_to_message msgM1.name = some msgM2 ∧
      Warning.nameCollision msgM1.name msgM2.name ∈ dbC2n.refresh.2.1) ∧
    (dbC2i.refresh.2.2 = none ∧
      dbC2i.refresh.1.messages = dbC2i.messages ∧
      msgP ∈ dbC2i.refresh.1.messages ∧ msgQ ∈ dbC2i.refresh.1.messages ∧
      dictGet dbC2i.refresh.1.frame_id_to_message
        (msgP.frame_id &&& dbC2i.frame_id_mask) = some msgQ ∧
      Warning.frameIdCollision msgP.name msgQ.name
        (msgP.frame_id &&& dbC2i.frame_id_mask) ∈ dbC2i.refresh.2.1) :=
  ⟨C2_collision_shadowing.1 dbC2n [] [] [] msgM1 msgM2 rfl rfl
      (by decide) (by decide) (by decide),
    C2_collision_shadowing.2 dbC2i [] [] [] msgP msgQ rfl (by decide)
      (by decide) (by decide) (by decide)⟩

/-- C7: lookups by an absent name or an absent masked frame id raise a
not-found error; `get_node_by_name` and `get_bus_by_name` raise `KeyError`
when no node or bus carries the given name, and otherwise return a
node/bus of the database carrying exactly that name. -/
theorem C7_lookup_misses (db : Database) (n : String) (f : Nat)
    (nn bn : String) :
    (dictGet db.name_to_message n = none →
      db.get_message_by_name n = .error (.keyErrorName n)) ∧
    (dictGet db.frame_id_to_message (f &&& db.frame_id_mask) = none →
      db.get_message_by_frame_id f =
        .error (.keyErrorId (f &&& db.frame_id_mask))) ∧
    ((∀ nd ∈ db.nodes, nd.name ≠ nn) →
      db.get_node_by_name nn = .error (.keyErrorName nn)) ∧
    (∀ r, db.get_node_by_name nn = .ok r → r.name = nn ∧ r ∈ db.nodes) ∧
    ((∃ nd ∈ db.nodes, nd.name = nn) →
      (db.get_node_by_name nn).isOk = true) ∧
    ((∀ bs ∈ db.buses, bs.name ≠ bn) →
      db.get_bus_by_name bn = .error (.keyErrorName bn)) ∧
    (∀ r, db.get_bus_by_name bn = .ok r → r.name = bn ∧ r ∈ db.buses) ∧
    ((∃ bs ∈ db.buses, bs.name = bn) →
      (db.get_bus_by_name bn).isOk = true) := by
  refine ⟨?_, ?_, ?_, ?_, ?_, ?_, ?_, ?_⟩
  · intro h
    rw [Database.get_message_by_name, h]
  · intro h
    rw [Database.get_message_by_frame_id, h]
  · intro h
    rw [Database.get_node_by_name,
      List.find?_eq_none.mpr (fun x hx => by simp [h x hx])]
  · intro r hr
    rw [Database.get_node_by_name] at hr
    cases hf : db.nodes.find? (fun node => node.name == nn) with
    | none => rw [hf] at hr; cases hr
    | some nd =>
      rw [hf] at hr
      injection hr with hr2
      subst hr2
      exact ⟨by simpa using List.find?_some hf, List.mem_of_find?_eq_some hf⟩
  · rintro ⟨nd, hmem, hname⟩
    rw [Database.get_node_by_name]
    cases hf : db.nodes.find? (fun node => node.name == nn) with
    | none =>
      exact absurd (by simp [hname]) (List.find?_eq_none.mp hf nd hmem)
    | some r => rfl
  · intro h
    rw [Database.get_bus_by_name,
      List.find?_eq_none.mpr (fun x hx => by simp [h x hx])]
  · intro r hr
    rw [Database.get_bus_by_name] at hr
    cases hf : db.buses.find? (fun bus => bus.name == bn) with
    | none => rw [hf] at hr; cases hr
    | some bs =>
      rw [hf] at hr
      injection hr with hr2
      subst hr2
      exact ⟨by simpa using List.find?_some hf, List.mem_of_find?_eq_some hf⟩
  · rintro ⟨bs, hmem, hname⟩
    rw [Database.get_bus_by_name]
    cases hf : db.buses.find? (fun bus => bus.name == bn) with
    | none =>
      exact absurd (by simp [hname]) (List.find?_eq_none.mp hf bs hmem)
    | some r => rfl

/-- Witness for C7 at a concrete database with one node and one bus. -/
theorem C7_witness :
    dbC7.get_message_by_name "Nope" = .error (.keyErrorName "Nope") ∧
    dbC7.get_message_by_frame_id 5 =
      .error (.keyErrorId (5 &&& dbC7.frame_id_mask)) ∧
    dbC7.get_node_by_name "X" = .error (.keyErrorName "X") ∧
    (nodeN1.name = "N1" ∧ nodeN1 ∈ dbC7.nodes) ∧
    (dbC7.get_node_by_name "N1").isOk = true ∧
    dbC7.get_bus_by_name "X" = .error (.keyErrorName "X") ∧
    (busB1.name = "B1" ∧ busB1 ∈ dbC7.buses) ∧
    (dbC7.get_bus_by_name "B1").isOk = true := by
  have hA := C7_lookup_misses dbC7 "Nope" 5 "X" "X"
  have hB := C7_lookup_misses dbC7 "Nope" 5 "N1" "B1"
  exact ⟨hA.1 (by decide), hA.2.1 (by decide), hA.2.2.1 (by decide),
    hB.2.2.2.1 nodeN1 (by decide), hB.2.2.2.2.1 (by decide),
    hA.2.2.2.2.2.1 (by decide), hB.2.2.2.2.2.2.1 busB1 (by decide),
    hB.2.2.2.2.2.2.2 (by decide)⟩

/-- Counterexample to C1: with mask `m = 0xf` and `f = 2` the claim's
hypothesis `(f & m) = ((f | ~m) & m)` holds, yet `decode_message(f)`
succeeds while `decode_message(f | ~m)` raises a `KeyError`, because the
integer key is looked up unmasked — so the two calls do not return the
same result. -/
theorem C1_counterexample :
    (2 &&& 0xf) = ((2 ||| complement32 0xf) &&& 0xf) ∧
    dbC1.decode_message (.id 2) [171] true true = .ok [("S", 171)] ∧
    dbC1.decode_message (.id (2 ||| complement32 0xf)) [171] true true =
      .error (.keyErrorId (2 ||| complement32 0xf)) ∧
    dbC1.decode_message (.id 2) [171] true true ≠
      dbC1.decode_message (.id (2 ||| complement32 0xf)) [171] true true := by
  decide

/-- C1 amended: `encode_message` and `decode_message` with an integer key
look the message up under the raw, unmasked id (only
`get_message_by_frame_id` applies the mask).  Since the index stores only
masked keys, any integer key that is not already masked misses with a
`KeyError` for both encode and decode. -/
theorem C1_amended (db : Database) (f : Nat) (data : List Nat)
    (values : List (String × Nat)) (dc sc p st : Bool)
    (hkeys : maskedKeys db)
    (hf : f &&& db.frame_id_mask ≠ f) :
    db.decode_message (.id f) data dc sc = .error (.keyErrorId f) ∧
    db.encode_message (.id f) values sc p st = .error (.keyErrorId f) ∧
    db.get_message_by_frame_id f =
      db.get_message_by_frame_id (f &&& db.frame_id_mask) := by
  have hnone : dictGet db.frame_id_to_message f = none := by
    cases hg : dictGet db.frame_id_to_message f with
    | none => rfl
    | some m =>
      have hmem := dictGet_mem _ _ _ hg
      exact absurd (hkeys (f, m) hmem) hf
  refine ⟨?_, ?_, ?_⟩
  · simp only [Database.decode_message, hnone]
  · simp only [Database.encode_message, hnone]
  · simp only [Database.get_message_by_frame_id, land_land_self]

/-- Witness for the amended C1: looking up the unmasked id 0x12 in `dbC1`
fails for both encode and decode, while `get_message_by_frame_id` masks. -/
theorem C1_amended_witness :
    dbC1.decode_message (.id 0x12) [171] true true =
      .error (.keyErrorId 0x12) ∧
    dbC1.encode_message (.id 0x12) [("S", 1)] true false true =
      .error (.keyErrorId 0x12) ∧
    dbC1.get_message_by_frame_id 0x12 =
      dbC1.get_message_by_frame_id (0x12 &&& dbC1.frame_id_mask) :=
  C1_amended dbC1 0x12 [171] [("S", 1)] true true false true
    (show ∀ q ∈ dbC1.frame_id_to_message, q.1 &&& dbC1.frame_id_mask = q.1
      by decide)
    (by decide)

/-- Counterexample to C9: under the default mask the two distinct
non-negative frame ids 0 and 2^32 collapse to the same index slot, and the
lookup of the earlier message's id 0 returns the later message — so
masking does occur for ids of 2^32 and above. -/
theorem C9_counterexample :
    msgA0.frame_id ≠ msgB32.frame_id ∧
    msgA0 ∈ dbC9.messages ∧ msgB32 ∈ dbC9.messages ∧
    dbC9.frame_id_mask = 0xffffffff ∧
    dbC9.get_message_by_frame_id msgA0.frame_id = .ok msgB32 ∧
    dbC9.get_message_by_frame_id msgB32.frame_id =
      dbC9.get_message_by_frame_id msgA0.frame_id := by
  decide

theorem init_mask (messages : Option (List Message))
    (nodes : Option (List Node)) (buses : Option (List Bus))
    (version : Option String) (dbc autosar mask : Option Nat)
    (strictFlag : Bool) :
    (Database.init messages nodes buses version dbc autosar mask
      strictFlag).1.frame_id_mask = mask.getD 0xffffffff := by
  rw [Database.init, refresh_mask]

/-- C9 amended: the default mask is `0xffffffff` — the low 32 bits, not
all bits of an unbounded integer — so no masking occurs only for frame ids
below 2^32: such an id is its own lookup key, two distinct such ids never
collapse, and `get_message_by_frame_id` resolves via the unmasked id; ids
of 2^32 and above are truncated to their low 32 bits. -/
theorem C9_amended (db : Database) (f g : Nat)
    (messages : Option (List Message)) (nodes : Option (List Node))
    (buses : Option (List Bus)) (version : Option String)
    (dbc autosar : Option Nat) (strictFlag : Bool)
    (hdb : db.frame_id_mask = 0xffffffff)
    (hf : f < 2 ^ 32) (hg : g < 2 ^ 32) (hfg : f ≠ g) :
    (Database.init messages nodes buses version dbc autosar none
      strictFlag).1.frame_id_mask = 0xffffffff ∧
    f &&& db.frame_id_mask = f ∧
    f &&& db.frame_id_mask ≠ g &&& db.frame_id_mask ∧
    db.get_message_by_frame_id f =
      (match dictGet db.frame_id_to_message f with
        | some m => .ok m
        | none => .error (.keyErrorId f)) := by
  have hfid : f &&& db.frame_id_mask = f := by
    rw [hdb]
    exact land_mask32_of_lt f hf
  have hgid : g &&& db.frame_id_mask = g := by
    rw [hdb]
    exact land_mask32_of_lt g hg
  refine ⟨?_, hfid, ?_, ?_⟩
  · rw [init_mask]
    rfl
  · rw [hfid, hgid]
    exact hfg
  · rw [Database.get_message_by_frame_id, hfid]

/-- Witness for the amended C9 at the concrete database `dbC9` and the ids
0 and 5, both below 2^32. -/
theorem C9_amended_witness :
    (Database.init (some [msgA0, msgB32]) none none none none none none
      true).1.frame_id_mask = 0xffffffff ∧
    0 &&& dbC9.frame_id_mask = 0 ∧
    0 &&& dbC9.frame_id_mask ≠ 5 &&& dbC9.frame_id_mask ∧
    dbC9.get_message_by_frame_id 0 =
      (match dictGet dbC9.frame_id_to_message 0 with
        | some m => .ok m
        | none => .error (.keyErrorId 0)) :=
  C9_amended dbC9 0 5 (some [msgA0, msgB32]) none none none none none true
    (by decide) (by decide) (by decide) (by decide)

end Cantools
